import Mathlib

/-!
Verification of the geo-lod Linked-Data construction layer
(`ontology/geo_lod_utils.py` of the EPICA-SISAL-FAIRification repository).

Shallow embedding conventions:
* Python strings are modelled as `List Char` (`Str`); `chars` converts a Lean
  string literal to that representation.
* Python floats are modelled as exact rationals (`ℚ`); every finite IEEE-754
  double is a rational, and `str.format` fixed-point rendering is modelled by
  exact round-half-even on that rational (`roundHalfEven`, `pyFixed`).
* An rdflib `Graph` is a set of triples with namespace bindings; it is
  modelled as a record holding the binding list and a duplicate-free triple
  list to which `addT` appends a triple exactly when it is not yet present
  (rdflib `Graph.add` has set semantics).
* File I/O (`write_mermaid`) is modelled as the pure filename ↦ content
  mapping it writes; `get_graph`'s dynamic `ImportError` is modelled by
  passing the `RDF_AVAILABLE` flag explicitly and returning `Except`.
-/

/-- Python strings are modelled as lists of characters. -/
abbrev Str := List Char

/-- Conversion from a Lean string literal to the model type. -/
def chars (s : String) : Str := s.data

/-- Python `str.strip()` whitespace test (ASCII whitespace characters;
Python additionally strips some rarer Unicode spaces, which never occur in
the inputs this layer handles). -/
def pyIsSpace (c : Char) : Bool :=
  c == ' ' || c == '\t' || c == '\n' || c == '\x0d' || c == '\x0b' || c == '\x0c'

/-- Leading-whitespace removal (first half of Python `str.strip()`). -/
def dropLead (l : Str) : Str := l.dropWhile pyIsSpace

/-- Trailing-whitespace removal (second half of Python `str.strip()`). -/
def dropTrail (l : Str) : Str := (l.reverse.dropWhile pyIsSpace).reverse

/-- Python `str.strip()`: remove leading and trailing whitespace. -/
def pyStrip (l : Str) : Str := dropTrail (dropLead l)

/-- Python `s.startswith("<")`. -/
def headLt : Str → Bool
  | [] => false
  | c :: _ => c == '<'

/-- `GEOLOD_BASE` from `geo_lod_utils.py`. -/
def GEOLOD_BASE : Str := chars "http://w3id.org/geo-lod/"

/-- `CRS_WGS84` from `geo_lod_utils.py`: the CRS URI embedded in every WKT
literal. -/
def CRS_WGS84 : Str := chars "http://www.opengis.net/def/crs/EPSG/0/4326"

/-- The `NS` namespace registry dict of `geo_lod_utils.py`, in insertion
order (Python dicts preserve insertion order). -/
def NS : List (Str × Str) :=
  [ (chars "rdf", chars "http://www.w3.org/1999/02/22-rdf-syntax-ns#")
  , (chars "rdfs", chars "http://www.w3.org/2000/01/rdf-schema#")
  , (chars "owl", chars "http://www.w3.org/2002/07/owl#")
  , (chars "xsd", chars "http://www.w3.org/2001/XMLSchema#")
  , (chars "geo", chars "http://www.opengis.net/ont/geosparql#")
  , (chars "sf", chars "http://www.opengis.net/ont/sf#")
  , (chars "crm", chars "http://www.cidoc-crm.org/cidoc-crm/")
  , (chars "crmsci", chars "http://www.ics.forth.gr/isl/CRMsci/")
  , (chars "sosa", chars "http://www.w3.org/ns/sosa/")
  , (chars "ssn", chars "http://www.w3.org/ns/ssn/")
  , (chars "qudt", chars "http://qudt.org/schema/qudt/")
  , (chars "unit", chars "http://qudt.org/vocab/unit/")
  , (chars "prov", chars "http://www.w3.org/ns/prov#")
  , (chars "dct", chars "http://purl.org/dc/terms/")
  , (chars "dcat", chars "http://www.w3.org/ns/dcat#")
  , (chars "void", chars "http://rdfs.org/ns/void#")
  , (chars "skos", chars "http://www.w3.org/2004/02/skos/core#")
  , (chars "geolod", GEOLOD_BASE)
  ]

/-- `RDF.type` (rdflib vocabulary term used by the code). -/
def rdfType : Str := chars "http://www.w3.org/1999/02/22-rdf-syntax-ns#type"

/-- `RDFS.label`. -/
def rdfsLabel : Str := chars "http://www.w3.org/2000/01/rdf-schema#label"

/-- `RDFS.member`. -/
def rdfsMember : Str := chars "http://www.w3.org/2000/01/rdf-schema#member"

/-- `GEO["Feature"]`. -/
def geoFeature : Str := chars "http://www.opengis.net/ont/geosparql#Feature"

/-- `GEO["FeatureCollection"]`. -/
def geoFeatureCollection : Str :=
  chars "http://www.opengis.net/ont/geosparql#FeatureCollection"

/-- `GEO["hasGeometry"]`. -/
def geoHasGeometry : Str := chars "http://www.opengis.net/ont/geosparql#hasGeometry"

/-- `GEO["asWKT"]`. -/
def geoAsWKT : Str := chars "http://www.opengis.net/ont/geosparql#asWKT"

/-- `GEO["wktLiteral"]` (datatype of the WKT literal). -/
def geoWktLiteral : Str := chars "http://www.opengis.net/ont/geosparql#wktLiteral"

/-- `GEO["Geometry"]`: the abstract Geometry class, which the code must
never assert directly. -/
def geoGeometry : Str := chars "http://www.opengis.net/ont/geosparql#Geometry"

/-- `SF["Point"]`. -/
def sfPoint : Str := chars "http://www.opengis.net/ont/sf#Point"

/-- `CRM["E53_Place"]`. -/
def crmE53 : Str := chars "http://www.cidoc-crm.org/cidoc-crm/E53_Place"

/-- `CRM["E27_Site"]`. -/
def crmE27 : Str := chars "http://www.cidoc-crm.org/cidoc-crm/E27_Site"

/-- An RDF node in object position: a URI, a language-tagged literal
(`Literal(label, lang="en")`) or a datatyped literal
(`Literal(wkt, datatype=GEO["wktLiteral"])`). -/
inductive Node where
  | uri (u : Str)
  | litLang (v : Str) (lang : Str)
  | litTyped (v : Str) (dt : Str)
  deriving DecidableEq

/-- An RDF triple; subjects and predicates of this layer are always URIs. -/
structure Triple where
  s : Str
  p : Str
  o : Node
  deriving DecidableEq

/-- An rdflib `Graph`: namespace bindings plus a set of triples, represented
as a duplicate-free list in insertion order. -/
structure Graph where
  bindings : List (Str × Str)
  triples : List Triple
  deriving DecidableEq

/-- rdflib `Graph.add`: set-semantics insertion (a triple already present is
not added again). -/
def addT (g : Graph) (t : Triple) : Graph :=
  if t ∈ g.triples then g else { g with triples := g.triples ++ [t] }

/-- The triples of `g` whose subject is `u` (the sense in which a triple is
"about" an entity). -/
def triplesAbout (g : Graph) (u : Str) : List Triple :=
  g.triples.filter (fun t => t.s == u)

/-- Round the fraction `N / D` (with `D > 0`) to the nearest integer using
round-half-even ("bankers rounding"), the rounding used by Python `format`
fixed-point rendering.  `N.fdiv D` is the floor and `N - f * D` the
remainder in `[0, D)`; the remainder is compared with `D / 2`. -/
def roundHalfEven (N D : ℤ) : ℤ :=
  let f := N.fdiv D
  let rem := N - f * D
  if 2 * rem < D then f
  else if D < 2 * rem then f + 1
  else if f % 2 = 0 then f else f + 1

/-- Python `"\x7b:.pf\x7d".format(x)`: fixed-point rendering of `x` with `p`
fractional digits, modelled on the exact rational value of the float:
`x * 10 ^ p = x.num * 10 ^ p / x.den` is rounded half-even to an integer,
whose digits are then printed with the decimal point inserted `p` places
from the right.  The sign is that of the INPUT value, as in Python, so a
negative value that rounds to zero still prints a leading minus (the
negative-zero double, which `ℚ` cannot represent, is the one unmodelled
corner). -/
def pyFixed (x : ℚ) (p : ℕ) : Str :=
  let n : ℤ := roundHalfEven (x.num * ((10 ^ p : ℕ) : ℤ)) (x.den : ℤ)
  let a : ℕ := n.natAbs
  let ip : ℕ := a / 10 ^ p
  let fr : ℕ := a % 10 ^ p
  let ds : List Char := Nat.toDigits 10 fr
  (if x.num < 0 then ['-'] else []) ++ Nat.toDigits 10 ip ++
    (if p = 0 then [] else '.' :: (List.replicate (p - ds.length) '0' ++ ds))

/-- `wkt_point(lon, lat, precision=6)` from `geo_lod_utils.py`: the
CRS-prefixed WKT POINT string, longitude first. -/
def wkt_point (lon lat : ℚ) (precision : ℕ) : Str :=
  chars "<" ++ CRS_WGS84 ++ chars "> POINT(" ++
    pyFixed lon precision ++ chars " " ++ pyFixed lat precision ++ chars ")"

/-- `_ensure_crs(wkt)` from `geo_lod_utils.py`: strip the input, then
prepend the CRS in angle brackets plus a space unless the stripped string
already starts with `<`. -/
def _ensure_crs (wkt : Str) : Str :=
  let w := pyStrip wkt
  if headLt w then w else chars "<" ++ CRS_WGS84 ++ chars "> " ++ w

/-- The Python error raised by `get_graph` when rdflib is missing. -/
inductive PyErr where
  | importError (msg : Str)
  deriving DecidableEq

/-- `get_graph()` from `geo_lod_utils.py`, with the module-level
`RDF_AVAILABLE` flag passed explicitly: raises `ImportError` when rdflib is
absent, otherwise returns a fresh graph with every `NS` entry bound and no
triples. -/
def get_graph (rdf_available : Bool) : Except PyErr Graph :=
  if !rdf_available then
    .error (.importError (chars "rdflib is required.  pip install rdflib"))
  else
    .ok (NS.foldl
      (fun g pu => { g with bindings := g.bindings ++ [pu] })
      { bindings := [], triples := [] })

/-- `add_geo_site(g, site_uri, geom_uri, label, lon, lat, extra_types=())`
from `geo_lod_utils.py` (the WKT literal is built with the default
precision 6 of `wkt_point`). -/
def add_geo_site (g : Graph) (site_uri geom_uri : Str) (label : Str)
    (lon lat : ℚ) (extra_types : List Str) : Graph :=
  let g1 := addT g ⟨site_uri, rdfType, .uri geoFeature⟩
  let g2 := addT g1 ⟨site_uri, rdfType, .uri crmE53⟩
  let g3 := addT g2 ⟨site_uri, rdfType, .uri crmE27⟩
  let g4 := extra_types.foldl (fun h t => addT h ⟨site_uri, rdfType, .uri t⟩) g3
  let g5 := addT g4 ⟨site_uri, rdfsLabel, .litLang label (chars "en")⟩
  let g6 := addT g5 ⟨site_uri, geoHasGeometry, .uri geom_uri⟩
  let g7 := addT g6 ⟨geom_uri, rdfType, .uri sfPoint⟩
  addT g7 ⟨geom_uri, geoAsWKT, .litTyped (wkt_point lon lat 6) geoWktLiteral⟩

/-- `add_geo_site_from_wkt(g, site_uri, geom_uri, label, wkt,
extra_types=())` from `geo_lod_utils.py`: like `add_geo_site` but with a
pre-formed WKT string normalised through `_ensure_crs`. -/
def add_geo_site_from_wkt (g : Graph) (site_uri geom_uri : Str) (label : Str)
    (wkt : Str) (extra_types : List Str) : Graph :=
  let w := _ensure_crs wkt
  let g1 := addT g ⟨site_uri, rdfType, .uri geoFeature⟩
  let g2 := addT g1 ⟨site_uri, rdfType, .uri crmE53⟩
  let g3 := addT g2 ⟨site_uri, rdfType, .uri crmE27⟩
  let g4 := extra_types.foldl (fun h t => addT h ⟨site_uri, rdfType, .uri t⟩) g3
  let g5 := addT g4 ⟨site_uri, rdfsLabel, .litLang label (chars "en")⟩
  let g6 := addT g5 ⟨site_uri, geoHasGeometry, .uri geom_uri⟩
  let g7 := addT g6 ⟨geom_uri, rdfType, .uri sfPoint⟩
  addT g7 ⟨geom_uri, geoAsWKT, .litTyped w geoWktLiteral⟩

/-- `add_feature_collection(g, collection_uri, label, members)` from
`geo_lod_utils.py`. -/
def add_feature_collection (g : Graph) (collection_uri : Str) (label : Str)
    (members : List Str) : Graph :=
  let g1 := addT g ⟨collection_uri, rdfType, .uri geoFeatureCollection⟩
  let g2 := addT g1 ⟨collection_uri, rdfsLabel, .litLang label (chars "en")⟩
  members.foldl (fun h m => addT h ⟨collection_uri, rdfsMember, .uri m⟩) g2

/-- Number of occurrences of `pat` as a contiguous substring of `s` (counted
at every start position, as Python `str.count` does for the patterns used
here, which cannot overlap themselves). -/
def cntOcc (pat : Str) : Str → ℕ
  | [] => if pat.isPrefixOf ([] : Str) then 1 else 0
  | c :: t => (if pat.isPrefixOf (c :: t) then 1 else 0) + cntOcc pat t

/-- The CRS marker `"<" + CRS_WGS84 + ">"` whose presence and multiplicity
the spec constrains. -/
def crsPat : Str := chars "<" ++ CRS_WGS84 ++ chars ">"

/-- Whether `pat` occurs as a contiguous substring of `s` (Python `in`). -/
def hasSub (pat : Str) : Str → Bool
  | [] => pat.isPrefixOf ([] : Str)
  | c :: t => pat.isPrefixOf (c :: t) || hasSub pat t

/-- `MERMAID_TAXONOMY` from `geo_lod_utils.py`: the combined class-hierarchy
diagram text (the value of the `textwrap.dedent(...)` constant; `dedent`
removes the common four-space margin and blanks whitespace-only lines). -/
def MERMAID_TAXONOMY : Str := chars "flowchart LR\n%% External Ontologies\nsubgraph EXT[\"External Ontologies\"]\n    direction TB\n\n    subgraph CRM[\"CIDOC-CRM\"]\n        direction TB\n        CE53[\"crm:E53_Place\"]\n        CE27[\"crm:E27_Site\"]\n        CE22[\"crm:E22_Human-Made_Object\"]\n        CE7[\"crm:E7_Activity\"]\n    end\n\n    subgraph CRMSCI[\"CRMsci\"]\n        direction TB\n        CS4[\"crmsci:S4_Observation\"]\n        CS1[\"crmsci:S1_Matter_Removal\"]\n        CS6[\"crmsci:S6_Data_Evaluation\"]\n        CS9[\"crmsci:S9_Property_Type\"]\n    end\n\n    subgraph SOSA[\"SOSA\"]\n        direction TB\n        SO[\"sosa:Observation\"]\n        SS[\"sosa:Sample\"]\n        SP[\"sosa:ObservableProperty\"]\n    end\n\n    subgraph GEO[\"GeoSPARQL\"]\n        GF[\"geo:Feature\"]\n    end\n\n    subgraph PROV[\"PROV-O\"]\n        PE[\"prov:Entity\"]\n    end\nend\n\n%% Core Ontology\nsubgraph CORE[\"geo-lod Core Ontology\"]\n    direction TB\n    PALOBS[\"PalaeoclimateObservation\"]\n    PALSAMPLE[\"PalaeoclimateSample\"]\n    SAMPLINGLOC[\"SamplingLocation\"]\n    CHRONO[\"Chronology\"]\n    OBSPROP[\"ObservableProperty\"]\n    DATASRC[\"DataSource\"]\n    MTYPE[\"MeasurementType\"]\n    SMOOTH[\"SmoothingMethod\"]\nend\n\n%% EPICA Extension\nsubgraph EPICA[\"EPICA Ice Core Extension\"]\n    direction TB\n    ICEOBS[\"IceCoreObservation\"]\n    CH4OBS[\"CH4Observation\"]\n    D18OOBS[\"Delta18OObservation\"]\n    ICECORE[\"IceCore\"]\n    DRILLSITE[\"DrillingSite\"]\n    DRILLCAMP[\"DrillingCampaign\"]\n    ICECHRONO[\"IceCoreChronology\"]\nend\n\n%% SISAL Extension\nsubgraph SISAL[\"SISAL Speleothem Extension\"]\n    direction TB\n    SPELOBS[\"SpeleothemObservation\"]\n    D18OSPELOBS[\"Delta18OSpeleothemObservation\"]\n    D13COBS[\"Delta13CSpeleothemObservation\"]\n    SPEL[\"Speleothem\"]\n    CAVE[\"Cave\"]\n    SSE[\"SpeleothemSamplingEvent\"]\n    UTHCHRONO[\"UThChronology\"]\nend\n\n%% External to Core relationships\nSO -.-> PALOBS\nCS4 -.-> PALOBS\nSS -.-> PALSAMPLE\nCE53 -.-> SAMPLINGLOC\nCE27 -.-> SAMPLINGLOC\nGF -.-> SAMPLINGLOC\nSP -.-> OBSPROP\nCS9 -.-> OBSPROP\nCS9 -.-> MTYPE\nCS6 -.-> CHRONO\nCS6 -.-> SMOOTH\nPE -.-> DATASRC\nCE7 -.-> DRILLCAMP\nCS1 -.-> DRILLCAMP\nCE7 -.-> SSE\nCS1 -.-> SSE\n\n%% Core to Extensions\nPALOBS --> ICEOBS\nPALOBS --> SPELOBS\nICEOBS --> CH4OBS\nICEOBS --> D18OOBS\nSPELOBS --> D18OSPELOBS\nSPELOBS --> D13COBS\n\nPALSAMPLE --> ICECORE\nPALSAMPLE --> SPEL\nCE22 -.-> ICECORE\n\nSAMPLINGLOC --> DRILLSITE\nSAMPLINGLOC --> CAVE\n\nCHRONO --> ICECHRONO\nCHRONO --> UTHCHRONO\n\n%% Styling - External Ontologies\nstyle EXT fill:#fafafa,stroke:#999,color:#333\nstyle CRM fill:#fde8e8,stroke:#9b2226,color:#333\nstyle CRMSCI fill:#ffe8e8,stroke:#e63946,color:#333\nstyle SOSA fill:#e8f0fb,stroke:#1d3557,color:#333\nstyle GEO fill:#e8f1f7,stroke:#457b9d,color:#333\nstyle PROV fill:#fef0e8,stroke:#e76f51,color:#333\n\nstyle CE53 fill:#9b2226,color:#fff,stroke:#7a1a1d\nstyle CE27 fill:#9b2226,color:#fff,stroke:#7a1a1d\nstyle CE22 fill:#9b2226,color:#fff,stroke:#7a1a1d\nstyle CE7 fill:#9b2226,color:#fff,stroke:#7a1a1d\nstyle CS4 fill:#e63946,color:#fff,stroke:#c1121f\nstyle CS1 fill:#e63946,color:#fff,stroke:#c1121f\nstyle CS6 fill:#e63946,color:#fff,stroke:#c1121f\nstyle CS9 fill:#e63946,color:#fff,stroke:#c1121f\nstyle SO fill:#1d3557,color:#fff,stroke:#0d2137\nstyle SS fill:#1d3557,color:#fff,stroke:#0d2137\nstyle SP fill:#1d3557,color:#fff,stroke:#0d2137\nstyle GF fill:#457b9d,color:#fff,stroke:#2c5f7a\nstyle PE fill:#e76f51,color:#fff,stroke:#c45c3e\n\n%% Styling - Core\nstyle CORE fill:#e8f4f8,stroke:#457b9d,stroke-width:2px,color:#333\nstyle PALOBS fill:#74c0fc,color:#000,stroke:#1971c2,stroke-width:2px\nstyle PALSAMPLE fill:#74c0fc,color:#000,stroke:#1971c2,stroke-width:2px\nstyle SAMPLINGLOC fill:#74c0fc,color:#000,stroke:#1971c2,stroke-width:2px\nstyle CHRONO fill:#74c0fc,color:#000,stroke:#1971c2,stroke-width:2px\nstyle OBSPROP fill:#a5d8ff,color:#000,stroke:#4dabf7\nstyle DATASRC fill:#a5d8ff,color:#000,stroke:#4dabf7\nstyle MTYPE fill:#a5d8ff,color:#000,stroke:#4dabf7\nstyle SMOOTH fill:#a5d8ff,color:#000,stroke:#4dabf7\n\n%% Styling - EPICA\nstyle EPICA fill:#d4edda,stroke:#2d6a4f,stroke-width:2px,color:#333\nstyle ICEOBS fill:#2d6a4f,color:#fff,stroke:#1b4332,stroke-width:2px\nstyle CH4OBS fill:#40916c,color:#fff,stroke:#2d6a4f\nstyle D18OOBS fill:#40916c,color:#fff,stroke:#2d6a4f\nstyle ICECORE fill:#2d6a4f,color:#fff,stroke:#1b4332,stroke-width:2px\nstyle DRILLSITE fill:#2d6a4f,color:#fff,stroke:#1b4332,stroke-width:2px\nstyle DRILLCAMP fill:#2d6a4f,color:#fff,stroke:#1b4332,stroke-width:2px\nstyle ICECHRONO fill:#40916c,color:#fff,stroke:#2d6a4f\n\n%% Styling - SISAL\nstyle SISAL fill:#fff3cd,stroke:#856404,stroke-width:2px,color:#333\nstyle SPELOBS fill:#856404,color:#fff,stroke:#664d03,stroke-width:2px\nstyle D18OSPELOBS fill:#b8860b,color:#fff,stroke:#856404\nstyle D13COBS fill:#b8860b,color:#fff,stroke:#856404\nstyle SPEL fill:#856404,color:#fff,stroke:#664d03,stroke-width:2px\nstyle CAVE fill:#856404,color:#fff,stroke:#664d03,stroke-width:2px\nstyle SSE fill:#856404,color:#fff,stroke:#664d03,stroke-width:2px\nstyle UTHCHRONO fill:#b8860b,color:#fff,stroke:#856404\n"

/-- `_mermaid_instance_epica(rw, sgw, sgp)` from `geo_lod_utils.py`.  The
source declares the three numeric parameters, but its f-string template
contains no substitution field at all (the window sizes appear hard-coded as
`w11` and `p2`), so the returned text does not depend on them. -/
def _mermaid_instance_epica (rw sgw sgp : ℕ) : Str := chars "flowchart LR\n\nCATALOG([\"PalaeoclimateDataCatalogue\ngeolod:EPICA_DomeC_Catalog\"])\n\nDATASET([\"IceCoreDataset\ngeolod:EPICA_DomeC_Dataset\"])\n\nOBS([\"IceCoreObservation\ngeolod:Obs_CH4_0001\ngeolod:Obs_d18O_0001\"])\n\nCORE([\"IceCore\ngeolod:EpicaDomeC_IceCore\"])\n\nSITE([\"DrillingSite\ngeolod:EpicaDomeC_Site\"])\n\nCAMPAIGN([\"DrillingCampaign\nEPICA Dome C 1996-2004\"])\n\nPROP_CH4([\"CH4ConcentrationProperty\"])\nPROP_D18O([\"Delta18OProperty\"])\nMTYPE_CH4([\"MeasurementType CH4\"])\nMTYPE_D18O([\"MeasurementType d18O\"])\nCHRON_EDC2([\"EDC2 Chronology\"])\nCHRON_AICC([\"AICC2023 Chronology\"])\nMEDIAN([\"RollingMedianFilter w11\"])\nSG([\"SavitzkyGolayFilter w11 p2\"])\nSOURCE_CH4([\"PANGAEA 472484\nSpahni 2006\"])\nSOURCE_D18O([\"PANGAEA 961024\nBouchet 2023\"])\n\nGEOM([\"sf:Point\ngeolod:EpicaDomeC_Geometry\"])\n\nLDEPTH((atDepth_m))\nLAGE((ageKaBP))\nLVAL((measuredValue))\nLMEDIAN((smoothed median))\nLSG((smoothed savgol))\nLWKT((asWKT POINT))\nLPPB((unit PPB))\nLPRM((unit PERMILLE))\n\nCATALOG -->|dcat:dataset| DATASET\nDATASET -->|hasObservation| OBS\nDATASET -->|hasDrillingCampaign| CAMPAIGN\nOBS -->|hasFeatureOfInterest| CORE\nOBS -->|observedProperty| PROP_CH4\nOBS -->|observedProperty| PROP_D18O\nOBS -->|measurementType| MTYPE_CH4\nOBS -->|measurementType| MTYPE_D18O\nOBS -->|ageChronology| CHRON_EDC2\nOBS -->|ageChronology| CHRON_AICC\nOBS -->|smoothingMethod| MEDIAN\nOBS -->|smoothingMethod| SG\nOBS -->|wasDerivedFrom| SOURCE_CH4\nOBS -->|wasDerivedFrom| SOURCE_D18O\nOBS -.->|atDepth_m| LDEPTH\nOBS -.->|ageKaBP| LAGE\nOBS -.->|measuredValue| LVAL\nOBS -.->|smoothed| LMEDIAN\nOBS -.->|smoothed| LSG\nPROP_CH4 -.->|unit| LPPB\nPROP_D18O -.->|unit| LPRM\nCORE -->|extractedFrom| SITE\nCAMPAIGN -->|tookPlaceAt| SITE\nCAMPAIGN -->|removedSample| CORE\nSITE -->|geo:hasGeometry| GEOM\nGEOM -.->|asWKT| LWKT\n\n%% Main instances - darker green\nstyle CATALOG fill:#2d6a4f,color:#fff,stroke:#1b4332,stroke-width:2px\nstyle DATASET fill:#2d6a4f,color:#fff,stroke:#1b4332,stroke-width:2px\nstyle OBS fill:#2d6a4f,color:#fff,stroke:#1b4332,stroke-width:2px\nstyle CORE fill:#2d6a4f,color:#fff,stroke:#1b4332,stroke-width:2px\nstyle SITE fill:#2d6a4f,color:#fff,stroke:#1b4332,stroke-width:2px\nstyle CAMPAIGN fill:#2d6a4f,color:#fff,stroke:#1b4332,stroke-width:2px\n\n%% Supporting instances - lighter green\nstyle PROP_CH4 fill:#40916c,color:#fff,stroke:#2d6a4f\nstyle PROP_D18O fill:#40916c,color:#fff,stroke:#2d6a4f\nstyle MTYPE_CH4 fill:#40916c,color:#fff,stroke:#2d6a4f\nstyle MTYPE_D18O fill:#40916c,color:#fff,stroke:#2d6a4f\nstyle CHRON_EDC2 fill:#40916c,color:#fff,stroke:#2d6a4f\nstyle CHRON_AICC fill:#40916c,color:#fff,stroke:#2d6a4f\nstyle MEDIAN fill:#40916c,color:#fff,stroke:#2d6a4f\nstyle SG fill:#40916c,color:#fff,stroke:#2d6a4f\nstyle SOURCE_CH4 fill:#40916c,color:#fff,stroke:#2d6a4f\nstyle SOURCE_D18O fill:#40916c,color:#fff,stroke:#2d6a4f\n\n%% Geometry - blue\nstyle GEOM fill:#457b9d,color:#fff,stroke:#2c5f7a\n\n%% Literals - bright yellow\nstyle LDEPTH fill:#ffd60a,color:#000,stroke:#d4a005,stroke-width:2px\nstyle LAGE fill:#ffd60a,color:#000,stroke:#d4a005,stroke-width:2px\nstyle LVAL fill:#ffd60a,color:#000,stroke:#d4a005,stroke-width:2px\nstyle LMEDIAN fill:#ffd60a,color:#000,stroke:#d4a005,stroke-width:2px\nstyle LSG fill:#ffd60a,color:#000,stroke:#d4a005,stroke-width:2px\nstyle LWKT fill:#ffd60a,color:#000,stroke:#d4a005,stroke-width:2px\nstyle LPPB fill:#ffd60a,color:#000,stroke:#d4a005,stroke-width:2px\nstyle LPRM fill:#ffd60a,color:#000,stroke:#d4a005,stroke-width:2px\n"

/-- `_mermaid_instance_sisal(n=305)` from `geo_lod_utils.py`.  The source
declares the parameter `n`, but its f-string template contains no
substitution field (the member count appears hard-coded as `305 members`),
so the returned text does not depend on `n`. -/
def _mermaid_instance_sisal (n : ℕ) : Str := chars "flowchart LR\n\nCOLLECTION([\"geo:FeatureCollection\ngeolod:SISAL_Cave_Collection\n305 members\"])\n\nCAVE([\"Cave\ngeolod:Cave_site_0001\"])\n\nGEOM([\"sf:Point\ngeolod:Cave_site_0001_Geometry\"])\n\nSPEL([\"Speleothem\ngeolod:Speleothem_entity_XXXX\"])\n\nSSE([\"SpeleothemSamplingEvent\"])\n\nOBS([\"SpeleothemObservation\ngeolod:Obs_d18O_XXXX\ngeolod:Obs_d13C_XXXX\"])\n\nPROP_D18O([\"Delta18OProperty\"])\nPROP_D13C([\"Delta13CProperty\"])\nMTYPE_D18O([\"MeasurementType d18O\"])\nMTYPE_D13C([\"MeasurementType d13C\"])\nUTHC([\"UThChronology\"])\nMEDIAN([\"RollingMedianFilter w11\"])\nSAVGOL([\"SavitzkyGolayFilter w11 p2\"])\nDATASRC([\"SISALv3 DataSource\"])\n\nLAGE((ageKaBP))\nLDEPTH((atDepth_mm))\nLVAL((measuredValue))\nLMEDIAN((smoothed median))\nLSG((smoothed savgol))\nLWKT((asWKT POINT))\nLPRM((unit PERMILLE))\n\nCOLLECTION -->|rdfs:member| CAVE\nCAVE -->|geo:hasGeometry| GEOM\nSPEL -->|collectedFrom| CAVE\nSSE -->|tookPlaceAt| CAVE\nSSE -->|removedSample| SPEL\nOBS -->|hasFeatureOfInterest| SPEL\nOBS -->|observedProperty| PROP_D18O\nOBS -->|observedProperty| PROP_D13C\nOBS -->|measurementType| MTYPE_D18O\nOBS -->|measurementType| MTYPE_D13C\nOBS -->|ageChronology| UTHC\nOBS -->|smoothingMethod| MEDIAN\nOBS -->|smoothingMethod| SAVGOL\nOBS -->|wasDerivedFrom| DATASRC\nOBS -.->|ageKaBP| LAGE\nOBS -.->|atDepth_mm| LDEPTH\nOBS -.->|measuredValue| LVAL\nOBS -.->|smoothed| LMEDIAN\nOBS -.->|smoothed| LSG\nPROP_D18O -.->|unit| LPRM\nPROP_D13C -.->|unit| LPRM\nGEOM -.->|asWKT| LWKT\n\n%% Main instances - darker yellow/brown\nstyle COLLECTION fill:#856404,color:#fff,stroke:#664d03,stroke-width:2px\nstyle CAVE fill:#856404,color:#fff,stroke:#664d03,stroke-width:2px\nstyle SPEL fill:#856404,color:#fff,stroke:#664d03,stroke-width:2px\nstyle SSE fill:#856404,color:#fff,stroke:#664d03,stroke-width:2px\nstyle OBS fill:#856404,color:#fff,stroke:#664d03,stroke-width:2px\n\n%% Supporting instances - lighter brown\nstyle PROP_D18O fill:#b8860b,color:#fff,stroke:#856404\nstyle PROP_D13C fill:#b8860b,color:#fff,stroke:#856404\nstyle MTYPE_D18O fill:#b8860b,color:#fff,stroke:#856404\nstyle MTYPE_D13C fill:#b8860b,color:#fff,stroke:#856404\nstyle UTHC fill:#b8860b,color:#fff,stroke:#856404\nstyle MEDIAN fill:#b8860b,color:#fff,stroke:#856404\nstyle SAVGOL fill:#b8860b,color:#fff,stroke:#856404\nstyle DATASRC fill:#b8860b,color:#fff,stroke:#856404\n\n%% Geometry - blue\nstyle GEOM fill:#457b9d,color:#fff,stroke:#2c5f7a\n\n%% Literals - bright yellow\nstyle LAGE fill:#ffd60a,color:#000,stroke:#d4a005,stroke-width:2px\nstyle LDEPTH fill:#ffd60a,color:#000,stroke:#d4a005,stroke-width:2px\nstyle LVAL fill:#ffd60a,color:#000,stroke:#d4a005,stroke-width:2px\nstyle LMEDIAN fill:#ffd60a,color:#000,stroke:#d4a005,stroke-width:2px\nstyle LSG fill:#ffd60a,color:#000,stroke:#d4a005,stroke-width:2px\nstyle LWKT fill:#ffd60a,color:#000,stroke:#d4a005,stroke-width:2px\nstyle LPRM fill:#ffd60a,color:#000,stroke:#d4a005,stroke-width:2px\n"

/-- `write_mermaid(outdir, rolling_window=11, sg_window=11, sg_poly=2,
n_sisal_sites=305)` from `geo_lod_utils.py`, modelled as the pure mapping
from file name to file content that the function writes into `outdir`
(directory creation and the file writes themselves are I/O and not
modelled). -/
def write_mermaid (rolling_window sg_window sg_poly n_sisal_sites : ℕ) :
    List (Str × Str) :=
  [ (chars "mermaid_taxonomy.mermaid", MERMAID_TAXONOMY)
  , (chars "mermaid_instance_epica.mermaid",
      _mermaid_instance_epica rolling_window sg_window sg_poly)
  , (chars "mermaid_instance_sisal.mermaid",
      _mermaid_instance_sisal n_sisal_sites)
  ]

/-- The exact collection of triples about `site_uri` and `geom_uri` that the
spec (claim C1) lists for a freshly added site, stated from the spec text:
three fixed types, the caller-supplied extra types, one label, one
`hasGeometry` link, one `sf:Point` type triple and one WKT literal triple. -/
def specSiteTriples (site_uri geom_uri lbl : Str) (lon lat : ℚ)
    (extra_types : List Str) : List Triple :=
  [ ⟨site_uri, rdfType, .uri geoFeature⟩
  , ⟨site_uri, rdfType, .uri crmE53⟩
  , ⟨site_uri, rdfType, .uri crmE27⟩ ]
  ++ extra_types.map (fun t => ⟨site_uri, rdfType, .uri t⟩)
  ++ [ ⟨site_uri, rdfsLabel, .litLang lbl (chars "en")⟩
     , ⟨site_uri, geoHasGeometry, .uri geom_uri⟩
     , ⟨geom_uri, rdfType, .uri sfPoint⟩
     , ⟨geom_uri, geoAsWKT, .litTyped (wkt_point lon lat 6) geoWktLiteral⟩ ]

/-- The `rdf:type` triples of `g` whose subject is `u`. -/
def typeTriples (g : Graph) (u : Str) : List Triple :=
  g.triples.filter (fun t => t.s == u && t.p == rdfType)

/-- The `rdfs:label` triples of `g` whose subject is `u`. -/
def labelTriples (g : Graph) (u : Str) : List Triple :=
  g.triples.filter (fun t => t.s == u && t.p == rdfsLabel)

/-- The `rdfs:member` triples of `g` whose subject is `u`. -/
def memberTriples (g : Graph) (u : Str) : List Triple :=
  g.triples.filter (fun t => t.s == u && t.p == rdfsMember)

theorem dropWhile_idem (p : Char → Bool) (l : Str) :
    List.dropWhile p (List.dropWhile p l) = List.dropWhile p l := by
  induction l with
  | nil => rfl
  | cons c t ih =>
    cases h : p c with
    | true => simp [List.dropWhile_cons, h, ih]
    | false => simp [List.dropWhile_cons, h]

theorem dropLead_cons_of_not {c : Char} (h : pyIsSpace c = false) (t : Str) :
    dropLead (c :: t) = c :: t := by
  simp [dropLead, List.dropWhile_cons, h]

theorem dropLead_idem (l : Str) : dropLead (dropLead l) = dropLead l :=
  dropWhile_idem _ _

theorem dropTrail_idem (l : Str) : dropTrail (dropTrail l) = dropTrail l := by
  simp [dropTrail, List.reverse_reverse, dropWhile_idem]

theorem dropTrail_cons_of_not {c : Char} (h : pyIsSpace c = false) (t : Str) :
    dropTrail (c :: t) = c :: dropTrail t := by
  unfold dropTrail
  rw [List.reverse_cons, List.dropWhile_append]
  cases he : (List.dropWhile pyIsSpace t.reverse).isEmpty with
  | true =>
    rw [List.isEmpty_iff] at he
    simp [he, List.dropWhile_cons, h]
  | false => simp [he]

theorem getLast?_dropTrail {m : Str} {c : Char}
    (h : (dropTrail m).getLast? = some c) : pyIsSpace c = false := by
  unfold dropTrail at h
  rw [List.getLast?_reverse] at h
  have := List.head?_dropWhile_not pyIsSpace m.reverse
  rw [h] at this
  exact this

theorem dropTrail_eq_self_of_getLast {l : Str}
    (h : ∀ c, l.getLast? = some c → pyIsSpace c = false) : dropTrail l = l := by
  cases hl : l.reverse with
  | nil =>
    have : l = [] := by
      have := congrArg List.reverse hl
      simpa using this
    simp [dropTrail, hl, this]
  | cons c t =>
    have hlast : l.getLast? = some c := by
      rw [← List.head?_reverse, hl]; rfl
    have hc := h c hlast
    have : List.dropWhile pyIsSpace l.reverse = l.reverse := by
      rw [hl, List.dropWhile_cons, hc]
      simp
    simp [dropTrail, this]

theorem pyStrip_eq_self_of {l : Str}
    (hh : ∀ c t, l = c :: t → pyIsSpace c = false)
    (hl : ∀ c, l.getLast? = some c → pyIsSpace c = false) : pyStrip l = l := by
  have h1 : dropLead l = l := by
    cases l with
    | nil => rfl
    | cons c t => exact dropLead_cons_of_not (hh c t rfl) t
  rw [pyStrip, h1, dropTrail_eq_self_of_getLast hl]

theorem pyStrip_cons_lt (t : Str) : pyStrip ('<' :: t) = '<' :: dropTrail t := by
  rw [pyStrip, dropLead_cons_of_not (by decide), dropTrail_cons_of_not (by decide)]

theorem headLt_exists {w : Str} (h : headLt w = true) : ∃ t, w = '<' :: t := by
  cases w with
  | nil => simp [headLt] at h
  | cons c t =>
    refine ⟨t, ?_⟩
    have : c = '<' := by simpa [headLt] using h
    rw [this]

theorem mem_addT {g : Graph} {t u : Triple} :
    t ∈ (addT g u).triples ↔ t ∈ g.triples ∨ t = u := by
  unfold addT
  by_cases h : u ∈ g.triples
  · simp only [if_pos h]
    constructor
    · exact Or.inl
    · rintro (h' | rfl)
      · exact h'
      · exact h
  · simp [if_neg h, List.mem_append]

theorem addT_of_not_mem {g : Graph} {u : Triple} (h : u ∉ g.triples) :
    (addT g u).triples = g.triples ++ [u] := by
  simp [addT, h]

theorem mem_foldl_addT {s : Str} {ts : List Str} {g : Graph} {t : Triple} :
    t ∈ (ts.foldl (fun h x => addT h ⟨s, rdfType, .uri x⟩) g).triples ↔
      t ∈ g.triples ∨ ∃ x ∈ ts, t = ⟨s, rdfType, .uri x⟩ := by
  induction ts generalizing g with
  | nil => simp
  | cons a l ih =>
    rw [List.foldl_cons, ih, mem_addT]
    simp only [List.mem_cons]
    constructor
    · rintro ((hg | rfl) | ⟨x, hx, rfl⟩)
      · exact Or.inl hg
      · exact Or.inr ⟨a, Or.inl rfl, rfl⟩
      · exact Or.inr ⟨x, Or.inr hx, rfl⟩
    · rintro (hg | ⟨x, hx | hx, rfl⟩)
      · exact Or.inl (Or.inl hg)
      · subst hx; exact Or.inl (Or.inr rfl)
      · exact Or.inr ⟨x, hx, rfl⟩

theorem not_mem_of_about_nil {g : Graph} {u : Str} (h : triplesAbout g u = [])
    {t : Triple} (hs : t.s = u) : t ∉ g.triples := by
  intro hmem
  have := List.filter_eq_nil_iff.mp h t hmem
  simp [hs] at this

theorem ensure_crs_of_headLt {w : Str} (h : headLt w = true) :
    _ensure_crs w = pyStrip w := by
  obtain ⟨t, rfl⟩ := headLt_exists h
  rw [_ensure_crs, pyStrip_cons_lt]
  simp [headLt]

theorem ensure_crs_of_stripped_headLt {w : Str} (h : headLt (pyStrip w) = true) :
    _ensure_crs w = pyStrip w := by
  rw [_ensure_crs]
  simp [h]

theorem ensure_crs_of_not_headLt {w : Str} (h : headLt (pyStrip w) = false) :
    _ensure_crs w = chars "<" ++ CRS_WGS84 ++ chars "> " ++ pyStrip w := by
  rw [_ensure_crs]
  simp [h]

theorem length_dropWhile_le (p : Char → Bool) (l : Str) :
    (l.dropWhile p).length ≤ l.length := by
  induction l with
  | nil => simp
  | cons c t ih =>
    rw [List.dropWhile_cons]
    cases p c <;> simp <;> omega

theorem not_space_of_dropLead_eq_self {c : Char} {t : Str}
    (h : dropLead (c :: t) = c :: t) : pyIsSpace c = false := by
  cases hc : pyIsSpace c with
  | true =>
    rw [dropLead, List.dropWhile_cons, hc] at h
    have hlen := congrArg List.length h
    have hle := length_dropWhile_le pyIsSpace t
    simp at hlen
    omega
  | false => rfl

theorem dropLead_dropTrail {m : Str} (hm : dropLead m = m) :
    dropLead (dropTrail m) = dropTrail m := by
  cases m with
  | nil => rfl
  | cons c t =>
    have hc := not_space_of_dropLead_eq_self hm
    rw [dropTrail_cons_of_not hc, dropLead_cons_of_not hc]

theorem pyStrip_idem (l : Str) : pyStrip (pyStrip l) = pyStrip l := by
  rw [pyStrip, pyStrip, dropLead_dropTrail (dropLead_idem l), dropTrail_idem]

theorem isPrefixOf_append_right {p x y : Str} (h : p.isPrefixOf x = true) :
    p.isPrefixOf (x ++ y) = true := by
  rw [List.isPrefixOf_iff_prefix] at h ⊢
  exact h.trans (List.prefix_append x y)

theorem cntOcc_cons (pat : Str) (c : Char) (t : Str) :
    cntOcc pat (c :: t) = (if pat.isPrefixOf (c :: t) then 1 else 0) + cntOcc pat t :=
  rfl

theorem cntOcc_append_no_head {h : Char} {pr : Str} (l t : Str)
    (hl : ∀ c ∈ l, c ≠ h) :
    cntOcc (h :: pr) (l ++ t) = cntOcc (h :: pr) t := by
  induction l with
  | nil => rfl
  | cons c l' ih =>
    have hc : c ≠ h := hl c (List.mem_cons_self c l')
    have hpre : (h :: pr).isPrefixOf (c :: (l' ++ t)) = false := by
      simp [List.isPrefixOf]
      intro he
      exact absurd he.symm hc
    rw [List.cons_append, cntOcc_cons, hpre]
    simp [ih (fun c hc => hl c (List.mem_cons_of_mem _ hc))]

theorem cntOcc_self_append {h : Char} {pr : Str} (t : Str)
    (hpr : ∀ c ∈ pr, c ≠ h) :
    cntOcc (h :: pr) ((h :: pr) ++ t) = 1 + cntOcc (h :: pr) t := by
  rw [List.cons_append, cntOcc_cons]
  have hpre : (h :: pr).isPrefixOf (h :: (pr ++ t)) = true := by
    have : (h :: pr).isPrefixOf ((h :: pr) ++ t) = true :=
      isPrefixOf_append_right (by simp [List.isPrefixOf_iff_prefix])
    simpa using this
  rw [hpre, cntOcc_append_no_head pr t hpr]
  simp

theorem cntOcc_le_prepend (pat l t : Str) :
    cntOcc pat t ≤ cntOcc pat (l ++ t) := by
  induction l with
  | nil => simp
  | cons c l' ih =>
    rw [List.cons_append, cntOcc_cons]
    omega

theorem cntOcc_le_append {h : Char} {pr : Str} (x y : Str) :
    cntOcc (h :: pr) x ≤ cntOcc (h :: pr) (x ++ y) := by
  induction x with
  | nil =>
    have : cntOcc (h :: pr) [] = 0 := by simp [cntOcc, List.isPrefixOf]
    simp [this]
  | cons c x' ih =>
    rw [List.cons_append, cntOcc_cons, cntOcc_cons]
    have hmono : (if (h :: pr).isPrefixOf (c :: x') then 1 else 0) ≤
        (if (h :: pr).isPrefixOf (c :: (x' ++ y)) then (1 : ℕ) else 0) := by
      cases hp : (h :: pr).isPrefixOf (c :: x') with
      | true =>
        have hp2 := @isPrefixOf_append_right (h :: pr) (c :: x') y hp
        rw [List.cons_append] at hp2
        simp [hp2]
      | false => simp
    have := ih
    omega

theorem eq_dropTrail_append (l : Str) :
    l = dropTrail l ++ (l.reverse.takeWhile pyIsSpace).reverse := by
  have h2 := congrArg List.reverse (List.takeWhile_append_dropWhile pyIsSpace l.reverse)
  rw [List.reverse_append, List.reverse_reverse] at h2
  exact h2.symm

theorem eq_takeWhile_append_dropLead (l : Str) :
    l = l.takeWhile pyIsSpace ++ dropLead l :=
  (List.takeWhile_append_dropWhile pyIsSpace l).symm

theorem cntOcc_pyStrip_le {h : Char} {pr : Str} (w : Str) :
    cntOcc (h :: pr) (pyStrip w) ≤ cntOcc (h :: pr) w := by
  have h1 : cntOcc (h :: pr) (dropLead w) ≤ cntOcc (h :: pr) w := by
    conv_rhs => rw [eq_takeWhile_append_dropLead w]
    exact cntOcc_le_prepend _ _ _
  have h2 : cntOcc (h :: pr) (pyStrip w) ≤ cntOcc (h :: pr) (dropLead w) := by
    conv_rhs => rw [eq_dropTrail_append (dropLead w)]
    exact cntOcc_le_append _ _
  omega

theorem crsPat_cons : crsPat = '<' :: (CRS_WGS84 ++ chars ">") := rfl

theorem crsPat_tail_no_lt : ∀ c ∈ CRS_WGS84 ++ chars ">", c ≠ '<' := by decide

theorem ne_nil_right_append {a b : Str} (hb : b ≠ []) : a ++ b ≠ [] := by
  intro h
  rcases List.append_eq_nil.mp h with ⟨_, h2⟩
  exact hb h2

theorem wkt_point_getLast (lon lat : ℚ) (p : ℕ) :
    (wkt_point lon lat p).getLast? = some ')' := by
  have n0 : chars ")" ≠ ([] : Str) := by decide
  rw [wkt_point, List.getLast?_append_of_ne_nil _ n0]
  rfl

theorem wkt_point_cons (lon lat : ℚ) (p : ℕ) :
    wkt_point lon lat p = '<' :: (CRS_WGS84 ++ (chars "> POINT(" ++
      (pyFixed lon p ++ (chars " " ++ (pyFixed lat p ++ chars ")"))))) := by
  rw [wkt_point]
  simp only [List.append_assoc]
  rfl

theorem ensure_crs_wkt_point (lon lat : ℚ) (p : ℕ) :
    _ensure_crs (wkt_point lon lat p) = wkt_point lon lat p := by
  have hstrip : pyStrip (wkt_point lon lat p) = wkt_point lon lat p := by
    apply pyStrip_eq_self_of
    · intro c t hct
      rw [wkt_point_cons] at hct
      cases hct
      decide
    · intro c hc
      rw [wkt_point_getLast] at hc
      cases hc
      decide
  have hhead : headLt (pyStrip (wkt_point lon lat p)) = true := by
    rw [hstrip, wkt_point_cons]
    rfl
  rw [ensure_crs_of_stripped_headLt hhead, hstrip]

theorem mem_add_geo_site_from_wkt {g : Graph} {s e lbl w : Str}
    {extras : List Str} {t : Triple} :
    t ∈ (add_geo_site_from_wkt g s e lbl w extras).triples ↔
      t ∈ g.triples ∨ t = ⟨s, rdfType, .uri geoFeature⟩ ∨
      t = ⟨s, rdfType, .uri crmE53⟩ ∨ t = ⟨s, rdfType, .uri crmE27⟩ ∨
      (∃ x ∈ extras, t = ⟨s, rdfType, .uri x⟩) ∨
      t = ⟨s, rdfsLabel, .litLang lbl (chars "en")⟩ ∨
      t = ⟨s, geoHasGeometry, .uri e⟩ ∨ t = ⟨e, rdfType, .uri sfPoint⟩ ∨
      t = ⟨e, geoAsWKT, .litTyped (_ensure_crs w) geoWktLiteral⟩ := by
  unfold add_geo_site_from_wkt
  simp only [mem_addT, mem_foldl_addT, or_assoc]

theorem mem_add_geo_site {g : Graph} {s e lbl : Str} {lon lat : ℚ}
    {extras : List Str} {t : Triple} :
    t ∈ (add_geo_site g s e lbl lon lat extras).triples ↔
      t ∈ g.triples ∨ t = ⟨s, rdfType, .uri geoFeature⟩ ∨
      t = ⟨s, rdfType, .uri crmE53⟩ ∨ t = ⟨s, rdfType, .uri crmE27⟩ ∨
      (∃ x ∈ extras, t = ⟨s, rdfType, .uri x⟩) ∨
      t = ⟨s, rdfsLabel, .litLang lbl (chars "en")⟩ ∨
      t = ⟨s, geoHasGeometry, .uri e⟩ ∨ t = ⟨e, rdfType, .uri sfPoint⟩ ∨
      t = ⟨e, geoAsWKT, .litTyped (wkt_point lon lat 6) geoWktLiteral⟩ := by
  unfold add_geo_site
  simp only [mem_addT, mem_foldl_addT, or_assoc]

theorem stored_wkt_mem (g : Graph) (s e lbl w : Str) (extras : List Str) :
    (⟨e, geoAsWKT, .litTyped (_ensure_crs w) geoWktLiteral⟩ : Triple) ∈
      (add_geo_site_from_wkt g s e lbl w extras).triples := by
  rw [mem_add_geo_site_from_wkt]
  simp

theorem stored_wkt_value {g : Graph} {s e lbl w : Str} {extras : List Str}
    {v dt : Str} (h : triplesAbout g e = [])
    (hmem : (⟨e, geoAsWKT, .litTyped v dt⟩ : Triple) ∈
      (add_geo_site_from_wkt g s e lbl w extras).triples) :
    v = _ensure_crs w ∧ dt = geoWktLiteral := by
  rw [mem_add_geo_site_from_wkt] at hmem
  rcases hmem with hg | h1 | h2 | h3 | ⟨x, hx, hh⟩ | h5 | h6 | h7 | h8
  · exact absurd hg (not_mem_of_about_nil h rfl)
  · exact absurd (show geoAsWKT = rdfType from congrArg Triple.p h1) (by decide)
  · exact absurd (show geoAsWKT = rdfType from congrArg Triple.p h2) (by decide)
  · exact absurd (show geoAsWKT = rdfType from congrArg Triple.p h3) (by decide)
  · exact absurd (show geoAsWKT = rdfType from congrArg Triple.p hh) (by decide)
  · exact absurd (show geoAsWKT = rdfsLabel from congrArg Triple.p h5) (by decide)
  · exact absurd (show geoAsWKT = geoHasGeometry from congrArg Triple.p h6)
      (by decide)
  · exact absurd (show geoAsWKT = rdfType from congrArg Triple.p h7) (by decide)
  · have ho : Node.litTyped v dt =
        Node.litTyped (_ensure_crs w) geoWktLiteral := congrArg Triple.o h8
    simp only [Node.litTyped.injEq] at ho
    exact ho

/-- Claim C2: for every finite lon, lat (modelled as exact rationals) and
every precision `p`, `wkt_point` returns exactly the EPSG:4326 CRS URI in
angle brackets followed by `" POINT("`, lon rendered with `p` fixed decimal
digits, a space, lat rendered with `p` fixed decimal digits, and `")"` —
longitude first, latitude second; in particular
`wkt_point 123.35 (-75.1) 6` is the documented example string.  As a total
Lean function it is pure and never fails. -/
theorem C2_wkt_point_format (lon lat : ℚ) (p : ℕ) :
    wkt_point lon lat p =
      chars "<http://www.opengis.net/def/crs/EPSG/0/4326> POINT(" ++
        pyFixed lon p ++ chars " " ++ pyFixed lat p ++ chars ")" ∧
    wkt_point (123.35 : ℚ) (-75.1 : ℚ) 6 =
      chars "<http://www.opengis.net/def/crs/EPSG/0/4326> POINT(123.350000 -75.100000)" := by
  constructor
  · rw [wkt_point,
      show chars "<" ++ CRS_WGS84 ++ chars "> POINT(" =
        chars "<http://www.opengis.net/def/crs/EPSG/0/4326> POINT(" by decide]
  · have h1 : (123.35 : ℚ) = (⟨2467, 20, by decide, by decide⟩ : ℚ) := by
      rw [Rat.mk'_eq_divInt, Rat.divInt_eq_div]; norm_num
    have h2 : (-75.1 : ℚ) = (⟨-751, 10, by decide, by decide⟩ : ℚ) := by
      rw [Rat.mk'_eq_divInt, Rat.divInt_eq_div]; norm_num
    rw [h1, h2]
    decide

/-- Claim C3 counterexample: for the input `"<a> "` — which starts with the
character `<` — `_ensure_crs` strips the trailing blank and therefore does
NOT return its input unchanged, refuting the claim as stated. -/
theorem C3_counterexample :
    headLt (chars "<a> ") = true ∧
    _ensure_crs (chars "<a> ") = chars "<a>" ∧
    _ensure_crs (chars "<a> ") ≠ chars "<a> " := by decide

/-- Claim C3 (amended): for every string `w` starting with `<`,
`_ensure_crs w` is `w` with trailing whitespace stripped, applying it twice
equals applying it once, and whenever `w` carries no surrounding whitespace
(`pyStrip w = w`) the result is `w` itself unchanged. -/
theorem C3_amended_ensure_crs (w : Str) (h : headLt w = true) :
    _ensure_crs w = pyStrip w ∧
    _ensure_crs (_ensure_crs w) = _ensure_crs w ∧
    (pyStrip w = w → _ensure_crs w = w) := by
  have e1 : _ensure_crs w = pyStrip w := ensure_crs_of_headLt h
  refine ⟨e1, ?_, fun hw => by rw [e1, hw]⟩
  obtain ⟨t, rfl⟩ := headLt_exists h
  rw [e1, pyStrip_cons_lt]
  rw [ensure_crs_of_headLt (by rfl), pyStrip_cons_lt, dropTrail_idem]

/-- Claim C3 witness: the amended statement instantiated at `"<b>"`. -/
theorem C3_witness :
    headLt (chars "<b>") = true ∧
    (_ensure_crs (chars "<b>") = pyStrip (chars "<b>") ∧
     _ensure_crs (_ensure_crs (chars "<b>")) = _ensure_crs (chars "<b>") ∧
     (pyStrip (chars "<b>") = chars "<b>" →
       _ensure_crs (chars "<b>") = chars "<b>")) :=
  ⟨by decide, C3_amended_ensure_crs (chars "<b>") (by decide)⟩

/-- Claim C5 counterexample: the input `" <a>"` does not start with `<`
(it starts with a blank), yet `_ensure_crs` returns `"<a>"`, which neither
starts with the CRS marker nor contains it at all — refuting the claim as
stated (the code tests the STRIPPED string, not the raw input). -/
theorem C5_counterexample :
    headLt (chars " <a>") = false ∧
    crsPat.isPrefixOf (_ensure_crs (chars " <a>")) = false ∧
    cntOcc crsPat (_ensure_crs (chars " <a>")) = 0 := by decide

/-- Claim C5 (amended): for every string `w` whose whitespace-stripped form
does not start with `<`, `_ensure_crs w` starts with the CRS marker and
contains it exactly one more time than the stripped input does — in
particular exactly once whenever `w` itself contains no occurrence. -/
theorem C5_amended_injection (w : Str) (h : headLt (pyStrip w) = false) :
    crsPat.isPrefixOf (_ensure_crs w) = true ∧
    cntOcc crsPat (_ensure_crs w) = 1 + cntOcc crsPat (pyStrip w) ∧
    (cntOcc crsPat w = 0 → cntOcc crsPat (_ensure_crs w) = 1) := by
  have he : _ensure_crs w = crsPat ++ (' ' :: pyStrip w) := by
    rw [ensure_crs_of_not_headLt h, crsPat]
    simp only [List.append_assoc]
    rfl
  have c1 : crsPat.isPrefixOf (_ensure_crs w) = true := by
    rw [he]
    exact isPrefixOf_append_right (by simp [List.isPrefixOf_iff_prefix])
  have c2 : cntOcc crsPat (_ensure_crs w) = 1 + cntOcc crsPat (pyStrip w) := by
    rw [he, crsPat_cons, cntOcc_self_append (' ' :: pyStrip w) crsPat_tail_no_lt]
    have h2 := @cntOcc_append_no_head '<' (CRS_WGS84 ++ chars ">")
      [' '] (pyStrip w) (by decide)
    rw [List.singleton_append] at h2
    rw [h2]
  refine ⟨c1, c2, fun h0 => ?_⟩
  have hle : cntOcc crsPat (pyStrip w) ≤ cntOcc crsPat w := by
    rw [crsPat_cons]
    exact cntOcc_pyStrip_le w
  omega

/-- Claim C5 witness: the amended statement instantiated at the
documentation example `"POINT(31.9333 41.4167)"`. -/
theorem C5_witness :
    headLt (pyStrip (chars "POINT(31.9333 41.4167)")) = false ∧
    cntOcc crsPat (chars "POINT(31.9333 41.4167)") = 0 ∧
    crsPat.isPrefixOf (_ensure_crs (chars "POINT(31.9333 41.4167)")) = true ∧
    cntOcc crsPat (_ensure_crs (chars "POINT(31.9333 41.4167)")) = 1 :=
  ⟨by decide, by decide,
   (C5_amended_injection (chars "POINT(31.9333 41.4167)") (by decide)).1,
   (C5_amended_injection (chars "POINT(31.9333 41.4167)") (by decide)).2.2
     (by decide)⟩

/-- Claim C6: adding a site from coordinates and adding it from the
equivalent WKT string `wkt_point lon lat 6` produce identical graphs — for
every starting graph, hence in particular for the empty graph of the claim.
The two entry points write byte-identical triples. -/
theorem C6_coords_wkt_equiv (g : Graph) (s e lbl : Str) (lon lat : ℚ)
    (extras : List Str) :
    add_geo_site g s e lbl lon lat extras =
      add_geo_site_from_wkt g s e lbl (wkt_point lon lat 6) extras := by
  unfold add_geo_site add_geo_site_from_wkt
  rw [ensure_crs_wkt_point]

/-- Claim C8: the SISAL instance diagram text contains the literal count
`305`, but the `n` parameter of `_mermaid_instance_sisal` (and all four
numeric parameters of `write_mermaid`) are ignored by the implementation:
the produced text is the same for every argument value, because the
f-string template contains no substitution field. -/
theorem C8_sisal_count_hardcoded :
    hasSub (chars "305") (_mermaid_instance_sisal 305) = true ∧
    (∀ n, _mermaid_instance_sisal n = _mermaid_instance_sisal 305) ∧
    (∀ a b c d, write_mermaid a b c d = write_mermaid 11 11 2 305) :=
  ⟨by decide, fun _ => rfl, fun _ _ _ _ => rfl⟩

/-- Claim C9: `get_graph` raises `ImportError` (the implementation of the
spec's DependencyUnavailable condition) exactly when the rdflib engine is
unavailable, and on success returns a graph with every `NS` registry entry
bound and no triples. -/
theorem C9_get_graph :
    get_graph false =
      .error (.importError (chars "rdflib is required.  pip install rdflib")) ∧
    get_graph true = .ok ⟨NS, []⟩ ∧
    (∀ b, (get_graph b).isOk = b) := by
  refine ⟨rfl, ?_, fun b => by cases b <;> rfl⟩
  rfl

theorem mem_specSiteTriples {s e lbl : Str} {lon lat : ℚ} {extras : List Str}
    {t : Triple} :
    t ∈ specSiteTriples s e lbl lon lat extras ↔
      (t = ⟨s, rdfType, .uri geoFeature⟩ ∨ t = ⟨s, rdfType, .uri crmE53⟩ ∨
       t = ⟨s, rdfType, .uri crmE27⟩ ∨
       (∃ x ∈ extras, t = ⟨s, rdfType, .uri x⟩) ∨
       t = ⟨s, rdfsLabel, .litLang lbl (chars "en")⟩ ∨
       t = ⟨s, geoHasGeometry, .uri e⟩ ∨ t = ⟨e, rdfType, .uri sfPoint⟩ ∨
       t = ⟨e, geoAsWKT, .litTyped (wkt_point lon lat 6) geoWktLiteral⟩) := by
  simp only [specSiteTriples, List.mem_append, List.mem_cons, List.mem_map,
    List.not_mem_nil, or_false, or_assoc]
  constructor
  · rintro (h | h | h | ⟨x, hx, rfl⟩ | h | h | h | h)
    · exact Or.inl h
    · exact Or.inr (Or.inl h)
    · exact Or.inr (Or.inr (Or.inl h))
    · exact Or.inr (Or.inr (Or.inr (Or.inl ⟨x, hx, rfl⟩)))
    · tauto
    · tauto
    · tauto
    · tauto
  · rintro (h | h | h | ⟨x, hx, rfl⟩ | h | h | h | h)
    · exact Or.inl h
    · exact Or.inr (Or.inl h)
    · exact Or.inr (Or.inr (Or.inl h))
    · exact Or.inr (Or.inr (Or.inr (Or.inl ⟨x, hx, rfl⟩)))
    · tauto
    · tauto
    · tauto
    · tauto

/-- Claim C1 counterexample: with `site_uri = geom_uri = "urn:u"` and
`extra_types = [geo:Geometry]` — inputs the universally quantified claim
covers — the graph DOES contain a triple asserting the abstract
`geo:Geometry` type for the geometry URI, even though the graph had no
prior triples about it. -/
theorem C1_counterexample :
    triplesAbout (⟨[], []⟩ : Graph) (chars "urn:u") = [] ∧
    (⟨chars "urn:u", rdfType, .uri geoGeometry⟩ : Triple) ∈
      (add_geo_site ⟨[], []⟩ (chars "urn:u") (chars "urn:u") (chars "L")
        (⟨0, 1, by decide, by decide⟩ : ℚ) (⟨0, 1, by decide, by decide⟩ : ℚ)
        [geoGeometry]).triples := by decide

/-- Claim C1 (amended): on a graph with no prior triples about `s` or `e`,
`add_geo_site` makes the triples whose subject is `s` or `e` exactly the
listed ones (three fixed types, the extra types, label, `hasGeometry`,
`sf:Point` type, WKT literal) — and the abstract `geo:Geometry` type is not
asserted for `e`, provided the caller did not itself pass `geo:Geometry`
among the extra types of a site whose URI equals the geometry URI. -/
theorem C1_amended_site_triples (g : Graph) (s e lbl : Str) (lon lat : ℚ)
    (extras : List Str) (h1 : triplesAbout g s = [])
    (h2 : triplesAbout g e = [])
    (hne : s ≠ e ∨ geoGeometry ∉ extras) :
    (∀ t : Triple, t.s = s ∨ t.s = e →
      (t ∈ (add_geo_site g s e lbl lon lat extras).triples ↔
        t ∈ specSiteTriples s e lbl lon lat extras)) ∧
    (⟨e, rdfType, .uri geoGeometry⟩ : Triple) ∉
      (add_geo_site g s e lbl lon lat extras).triples := by
  constructor
  · intro t hts
    rw [mem_add_geo_site, mem_specSiteTriples]
    have hng : t ∉ g.triples := by
      rcases hts with hts | hts
      · exact not_mem_of_about_nil h1 hts
      · exact not_mem_of_about_nil h2 hts
    constructor
    · rintro (hg | rest)
      · exact absurd hg hng
      · exact rest
    · exact Or.inr
  · rw [mem_add_geo_site]
    rintro (hg | h1' | h2' | h3' | ⟨x, hx, hh⟩ | h5' | h6' | h7' | h8')
    · exact not_mem_of_about_nil h2 rfl hg
    · have ho : Node.uri geoGeometry = Node.uri geoFeature := congrArg Triple.o h1'
      simp only [Node.uri.injEq] at ho
      exact absurd ho (by decide)
    · have ho : Node.uri geoGeometry = Node.uri crmE53 := congrArg Triple.o h2'
      simp only [Node.uri.injEq] at ho
      exact absurd ho (by decide)
    · have ho : Node.uri geoGeometry = Node.uri crmE27 := congrArg Triple.o h3'
      simp only [Node.uri.injEq] at ho
      exact absurd ho (by decide)
    · have hes : e = s := congrArg Triple.s hh
      have ho : Node.uri geoGeometry = Node.uri x := congrArg Triple.o hh
      simp only [Node.uri.injEq] at ho
      rcases hne with hne | hne
      · exact hne hes.symm
      · rw [← ho] at hx
        exact hne hx
    · have ho : Node.uri geoGeometry = Node.litLang lbl (chars "en") :=
        congrArg Triple.o h5'
      simp at ho
    · exact absurd (show rdfType = geoHasGeometry from congrArg Triple.p h6')
        (by decide)
    · have ho : Node.uri geoGeometry = Node.uri sfPoint := congrArg Triple.o h7'
      simp only [Node.uri.injEq] at ho
      exact absurd ho (by decide)
    · have ho : Node.uri geoGeometry =
          Node.litTyped (wkt_point lon lat 6) geoWktLiteral := congrArg Triple.o h8'
      simp at ho

/-- Claim C1 witness: the amended statement instantiated at distinct site
and geometry URIs, no extra types, and the origin as the coordinates. -/
theorem C1_witness :
    triplesAbout (⟨[], []⟩ : Graph) (chars "urn:s") = [] ∧
    triplesAbout (⟨[], []⟩ : Graph) (chars "urn:g") = [] ∧
    (chars "urn:s" ≠ chars "urn:g" ∨ geoGeometry ∉ ([] : List Str)) ∧
    ((⟨chars "urn:s", rdfType, .uri geoFeature⟩ : Triple) ∈
        (add_geo_site ⟨[], []⟩ (chars "urn:s") (chars "urn:g") (chars "L")
          (⟨0, 1, by decide, by decide⟩ : ℚ) (⟨0, 1, by decide, by decide⟩ : ℚ)
          []).triples ↔
      (⟨chars "urn:s", rdfType, .uri geoFeature⟩ : Triple) ∈
        specSiteTriples (chars "urn:s") (chars "urn:g") (chars "L")
          (⟨0, 1, by decide, by decide⟩ : ℚ) (⟨0, 1, by decide, by decide⟩ : ℚ)
          []) ∧
    (⟨chars "urn:g", rdfType, .uri geoGeometry⟩ : Triple) ∉
      (add_geo_site ⟨[], []⟩ (chars "urn:s") (chars "urn:g") (chars "L")
        (⟨0, 1, by decide, by decide⟩ : ℚ) (⟨0, 1, by decide, by decide⟩ : ℚ)
        []).triples :=
  ⟨by decide, by decide, Or.inl (by decide),
   (C1_amended_site_triples ⟨[], []⟩ (chars "urn:s") (chars "urn:g") (chars "L")
     (⟨0, 1, by decide, by decide⟩ : ℚ) (⟨0, 1, by decide, by decide⟩ : ℚ) []
     (by decide) (by decide) (Or.inl (by decide))).1 _ (Or.inl rfl),
   (C1_amended_site_triples ⟨[], []⟩ (chars "urn:s") (chars "urn:g") (chars "L")
     (⟨0, 1, by decide, by decide⟩ : ℚ) (⟨0, 1, by decide, by decide⟩ : ℚ) []
     (by decide) (by decide) (Or.inl (by decide))).2⟩

theorem ensure_crs_false_cons {w : Str} (h : headLt (pyStrip w) = false) :
    _ensure_crs w = '<' :: (CRS_WGS84 ++ (chars "> " ++ pyStrip w)) := by
  rw [ensure_crs_of_not_headLt h]
  simp only [List.append_assoc]
  rfl

/-- Claim C4 counterexample: a WKT string that begins with the CRS marker
but carries a doubled marker and a trailing blank — an input the claim
quantifies over — is stored stripped (not byte-identical) and the stored
value contains the CRS marker twice, not exactly once. -/
theorem C4_counterexample :
    crsPat.isPrefixOf (chars "<http://www.opengis.net/def/crs/EPSG/0/4326> <http://www.opengis.net/def/crs/EPSG/0/4326> P ") = true ∧
    (⟨chars "urn:g", geoAsWKT,
        .litTyped (chars "<http://www.opengis.net/def/crs/EPSG/0/4326> <http://www.opengis.net/def/crs/EPSG/0/4326> P") geoWktLiteral⟩ : Triple) ∈
      (add_geo_site_from_wkt ⟨[], []⟩ (chars "urn:s") (chars "urn:g")
        (chars "L")
        (chars "<http://www.opengis.net/def/crs/EPSG/0/4326> <http://www.opengis.net/def/crs/EPSG/0/4326> P ")
        []).triples ∧
    chars "<http://www.opengis.net/def/crs/EPSG/0/4326> <http://www.opengis.net/def/crs/EPSG/0/4326> P" ≠
      chars "<http://www.opengis.net/def/crs/EPSG/0/4326> <http://www.opengis.net/def/crs/EPSG/0/4326> P " ∧
    cntOcc crsPat (chars "<http://www.opengis.net/def/crs/EPSG/0/4326> <http://www.opengis.net/def/crs/EPSG/0/4326> P") = 2 := by
  decide

/-- Claim C4 (amended): for EVERY WKT string `w` that begins with the CRS
marker, `add_geo_site_from_wkt` stores `pyStrip w` — the input stripped of
surrounding whitespace, never re-prefixed — as the `geo:asWKT` value of the
geometry, and (given no prior triples about the geometry URI) every stored
`geo:asWKT` value for that geometry equals `pyStrip w`.  When `w`
additionally carries no surrounding whitespace, the stored value is
byte-identical to `w`, and when `w` moreover contains the CRS marker
exactly once, so does every stored value. -/
theorem C4_amended_store (g : Graph) (s e lbl w : Str) (extras : List Str)
    (h : triplesAbout g e = [])
    (hp : crsPat.isPrefixOf w = true) :
    (⟨e, geoAsWKT, .litTyped (pyStrip w) geoWktLiteral⟩ : Triple) ∈
      (add_geo_site_from_wkt g s e lbl w extras).triples ∧
    (∀ v dt, (⟨e, geoAsWKT, .litTyped v dt⟩ : Triple) ∈
        (add_geo_site_from_wkt g s e lbl w extras).triples → v = pyStrip w) ∧
    (pyStrip w = w →
      (⟨e, geoAsWKT, .litTyped w geoWktLiteral⟩ : Triple) ∈
        (add_geo_site_from_wkt g s e lbl w extras).triples ∧
      (cntOcc crsPat w = 1 → ∀ v dt,
        (⟨e, geoAsWKT, .litTyped v dt⟩ : Triple) ∈
          (add_geo_site_from_wkt g s e lbl w extras).triples →
        v = w ∧ cntOcc crsPat v = 1)) := by
  have hhead : headLt w = true := by
    rw [List.isPrefixOf_iff_prefix] at hp
    rcases hp with ⟨tail, htail⟩
    rw [← htail, crsPat_cons]
    rfl
  have hw : _ensure_crs w = pyStrip w := ensure_crs_of_headLt hhead
  have hm : (⟨e, geoAsWKT, .litTyped (pyStrip w) geoWktLiteral⟩ : Triple) ∈
      (add_geo_site_from_wkt g s e lbl w extras).triples := by
    have := stored_wkt_mem g s e lbl w extras
    rw [hw] at this
    exact this
  have huniq : ∀ v dt, (⟨e, geoAsWKT, .litTyped v dt⟩ : Triple) ∈
      (add_geo_site_from_wkt g s e lbl w extras).triples → v = pyStrip w := by
    intro v dt hmem
    have hv := stored_wkt_value h hmem
    rw [hw] at hv
    exact hv.1
  refine ⟨hm, huniq, fun hs => ⟨?_, fun hc v dt hmem => ?_⟩⟩
  · have hm2 := hm
    rw [hs] at hm2
    exact hm2
  · have hv := huniq v dt hmem
    rw [hs] at hv
    exact ⟨hv, by rw [hv]; exact hc⟩

/-- Claim C4 witness: the amended statement exercised at the self-test
input (an already-prefixed clean WKT string, stored byte-identical) and at
a prefixed string with a trailing blank (stored stripped by the universal
storage clause). -/
theorem C4_witness :
    triplesAbout (⟨[], []⟩ : Graph) (chars "urn:g") = [] ∧
    crsPat.isPrefixOf (chars "<http://www.opengis.net/def/crs/EPSG/0/4326> POINT(10.0 20.0)") = true ∧
    pyStrip (chars "<http://www.opengis.net/def/crs/EPSG/0/4326> POINT(10.0 20.0)") =
      chars "<http://www.opengis.net/def/crs/EPSG/0/4326> POINT(10.0 20.0)" ∧
    (⟨chars "urn:g", geoAsWKT,
        .litTyped (chars "<http://www.opengis.net/def/crs/EPSG/0/4326> POINT(10.0 20.0)") geoWktLiteral⟩ : Triple) ∈
      (add_geo_site_from_wkt ⟨[], []⟩ (chars "urn:s") (chars "urn:g")
        (chars "L")
        (chars "<http://www.opengis.net/def/crs/EPSG/0/4326> POINT(10.0 20.0)")
        []).triples ∧
    crsPat.isPrefixOf (chars "<http://www.opengis.net/def/crs/EPSG/0/4326> P ") = true ∧
    (⟨chars "urn:g", geoAsWKT,
        .litTyped (pyStrip (chars "<http://www.opengis.net/def/crs/EPSG/0/4326> P ")) geoWktLiteral⟩ : Triple) ∈
      (add_geo_site_from_wkt ⟨[], []⟩ (chars "urn:s") (chars "urn:g")
        (chars "L") (chars "<http://www.opengis.net/def/crs/EPSG/0/4326> P ")
        []).triples :=
  ⟨by decide, by decide, by decide,
   ((C4_amended_store ⟨[], []⟩ (chars "urn:s") (chars "urn:g") (chars "L")
     (chars "<http://www.opengis.net/def/crs/EPSG/0/4326> POINT(10.0 20.0)")
     [] (by decide) (by decide)).2.2 (by decide)).1,
   by decide,
   (C4_amended_store ⟨[], []⟩ (chars "urn:s") (chars "urn:g") (chars "L")
     (chars "<http://www.opengis.net/def/crs/EPSG/0/4326> P ")
     [] (by decide) (by decide)).1⟩

/-- Claim C10 counterexample: for the whitespace-only input `" "` the
stored `geo:asWKT` literal is the CRS header followed by a trailing blank —
it ends with whitespace, refuting the claim that the stored literal never
ends with whitespace. -/
theorem C10_counterexample :
    (⟨chars "urn:g", geoAsWKT,
        .litTyped (chars "<http://www.opengis.net/def/crs/EPSG/0/4326> ") geoWktLiteral⟩ : Triple) ∈
      (add_geo_site_from_wkt ⟨[], []⟩ (chars "urn:s") (chars "urn:g")
        (chars "L") (chars " ") []).triples ∧
    (chars "<http://www.opengis.net/def/crs/EPSG/0/4326> ").getLast? = some ' ' ∧
    pyIsSpace ' ' = true := by decide

/-- Claim C10 (amended): `_ensure_crs` strips the input and then decides on
prefixing exactly as the claim describes; the result never begins with
whitespace, and never ends with whitespace PROVIDED the stripped input is
nonempty (for whitespace-only input the stored value ends with the blank of
the CRS header).  The value stored by `add_geo_site_from_wkt` is always
`_ensure_crs w`. -/
theorem C10_amended_strip_store (w : Str) :
    (headLt (pyStrip w) = true → _ensure_crs w = pyStrip w) ∧
    (headLt (pyStrip w) = false →
      _ensure_crs w = chars "<" ++ CRS_WGS84 ++ chars "> " ++ pyStrip w) ∧
    (∀ c t, _ensure_crs w = c :: t → pyIsSpace c = false) ∧
    (pyStrip w ≠ [] →
      ∀ c, (_ensure_crs w).getLast? = some c → pyIsSpace c = false) ∧
    (∀ (g : Graph) (s e lbl : Str) (extras : List Str) (v dt : Str),
      triplesAbout g e = [] →
      (⟨e, geoAsWKT, .litTyped v dt⟩ : Triple) ∈
        (add_geo_site_from_wkt g s e lbl w extras).triples →
      v = _ensure_crs w) := by
  refine ⟨fun hb => ensure_crs_of_stripped_headLt hb,
    fun hb => ensure_crs_of_not_headLt hb, ?_, ?_, ?_⟩
  · intro c t he
    cases hb : headLt (pyStrip w) with
    | true =>
      rw [ensure_crs_of_stripped_headLt hb] at he
      rw [he] at hb
      have hcl : c = '<' := by simpa [headLt] using hb
      rw [hcl]
      decide
    | false =>
      rw [ensure_crs_false_cons hb] at he
      have hcl : c = '<' := (List.cons.injEq _ _ _ _ ▸ he.symm).1
      rw [hcl]
      decide
  · intro hne c hc
    cases hb : headLt (pyStrip w) with
    | true =>
      rw [ensure_crs_of_stripped_headLt hb] at hc
      exact getLast?_dropTrail hc
    | false =>
      rw [ensure_crs_of_not_headLt hb,
        List.getLast?_append_of_ne_nil _ hne] at hc
      exact getLast?_dropTrail hc
  · intro g s e lbl extras v dt hab hmem
    exact (stored_wkt_value hab hmem).1

/-- Claim C10 witness: the amended statement exercised at `" <a> "` (both
leading and trailing whitespace, stripped form starting with `<`) and at
`"P"` (injection branch). -/
theorem C10_witness :
    _ensure_crs (chars " <a> ") = pyStrip (chars " <a> ") ∧
    pyIsSpace '>' = false ∧
    _ensure_crs (chars "P") =
      chars "<" ++ CRS_WGS84 ++ chars "> " ++ pyStrip (chars "P") ∧
    ((⟨chars "urn:g", geoAsWKT, .litTyped (chars "<a>") geoWktLiteral⟩ : Triple) ∈
        (add_geo_site_from_wkt ⟨[], []⟩ (chars "urn:s") (chars "urn:g")
          (chars "L") (chars " <a> ") []).triples →
      chars "<a>" = _ensure_crs (chars " <a> ")) :=
  ⟨(C10_amended_strip_store (chars " <a> ")).1 (by decide),
   (C10_amended_strip_store (chars " <a> ")).2.2.2.1 (by decide) '>' (by decide),
   (C10_amended_strip_store (chars "P")).2.1 (by decide),
   fun hmem => (C10_amended_strip_store (chars " <a> ")).2.2.2.2
     ⟨[], []⟩ (chars "urn:s") (chars "urn:g") (chars "L") [] (chars "<a>")
     geoWktLiteral (by decide) hmem⟩

theorem addT_graph_of_not_mem (g : Graph) (u : Triple) (h : u ∉ g.triples) :
    addT g u = ⟨g.bindings, g.triples ++ [u]⟩ := by
  simp [addT, h]

/-- Claim C7 counterexample: the claim quantifies over every graph, but on a
graph that already holds an `rdfs:member` triple about the collection URI,
`add_feature_collection` with a two-member list leaves THREE membership
triples, not exactly two. -/
theorem C7_counterexample :
    (memberTriples (add_feature_collection
        ⟨[], [⟨chars "urn:c", rdfsMember, .uri (chars "urn:x")⟩]⟩
        (chars "urn:c") (chars "L") [chars "urn:m1", chars "urn:m2"])
      (chars "urn:c")).length = 3 ∧
    ¬ (memberTriples (add_feature_collection
        ⟨[], [⟨chars "urn:c", rdfsMember, .uri (chars "urn:x")⟩]⟩
        (chars "urn:c") (chars "L") [chars "urn:m1", chars "urn:m2"])
      (chars "urn:c")).length = 2 := by decide

/-- Claim C7 (amended): on a graph with no prior triples about `c` and for
distinct members `m1 ≠ m2`, `add_feature_collection` leaves exactly one
type triple and one label triple for `c` and exactly two membership
triples, one per member, written in the iteration order of the member
list (either order of `m1, m2` is covered by the quantifiers). -/
theorem C7_amended_collection (g : Graph) (c lbl m1 m2 : Str)
    (h : triplesAbout g c = []) (hm : m1 ≠ m2) :
    typeTriples (add_feature_collection g c lbl [m1, m2]) c =
      [⟨c, rdfType, .uri geoFeatureCollection⟩] ∧
    labelTriples (add_feature_collection g c lbl [m1, m2]) c =
      [⟨c, rdfsLabel, .litLang lbl (chars "en")⟩] ∧
    memberTriples (add_feature_collection g c lbl [m1, m2]) c =
      [⟨c, rdfsMember, .uri m1⟩, ⟨c, rdfsMember, .uri m2⟩] ∧
    (memberTriples (add_feature_collection g c lbl [m1, m2]) c).length = 2 := by
  have hg : ∀ t ∈ g.triples, (t.s == c) = false := by
    intro t ht
    have := List.filter_eq_nil_iff.mp h t ht
    simpa using this
  have e1 : (add_feature_collection g c lbl [m1, m2]).triples =
      g.triples ++ [⟨c, rdfType, .uri geoFeatureCollection⟩,
        ⟨c, rdfsLabel, .litLang lbl (chars "en")⟩,
        ⟨c, rdfsMember, .uri m1⟩, ⟨c, rdfsMember, .uri m2⟩] := by
    unfold add_feature_collection
    rw [List.foldl_cons, List.foldl_cons, List.foldl_nil]
    have hn1 : (⟨c, rdfType, .uri geoFeatureCollection⟩ : Triple) ∉ g.triples := by
      intro hmem
      have := hg _ hmem
      simp at this
    rw [addT_graph_of_not_mem g _ hn1]
    have hn2 : (⟨c, rdfsLabel, .litLang lbl (chars "en")⟩ : Triple) ∉
        g.triples ++ [⟨c, rdfType, .uri geoFeatureCollection⟩] := by
      intro hmem
      rcases List.mem_append.mp hmem with hmem | hmem
      · have := hg _ hmem
        simp at this
      · exact absurd (show rdfsLabel = rdfType from
          congrArg Triple.p (List.mem_singleton.mp hmem)) (by decide)
    rw [addT_graph_of_not_mem
      (Graph.mk g.bindings (g.triples ++
        [Triple.mk c rdfType (Node.uri geoFeatureCollection)]))
      (Triple.mk c rdfsLabel (Node.litLang lbl (chars "en"))) hn2]
    have hn3 : (⟨c, rdfsMember, .uri m1⟩ : Triple) ∉
        (g.triples ++ [⟨c, rdfType, .uri geoFeatureCollection⟩]) ++
          [⟨c, rdfsLabel, .litLang lbl (chars "en")⟩] := by
      intro hmem
      rcases List.mem_append.mp hmem with hmem | hmem
      · rcases List.mem_append.mp hmem with hmem | hmem
        · have := hg _ hmem
          simp at this
        · exact absurd (show rdfsMember = rdfType from
            congrArg Triple.p (List.mem_singleton.mp hmem)) (by decide)
      · exact absurd (show rdfsMember = rdfsLabel from
          congrArg Triple.p (List.mem_singleton.mp hmem)) (by decide)
    rw [addT_graph_of_not_mem
      (Graph.mk g.bindings ((g.triples ++
        [Triple.mk c rdfType (Node.uri geoFeatureCollection)]) ++
        [Triple.mk c rdfsLabel (Node.litLang lbl (chars "en"))]))
      (Triple.mk c rdfsMember (Node.uri m1)) hn3]
    have hn4 : (⟨c, rdfsMember, .uri m2⟩ : Triple) ∉
        ((g.triples ++ [⟨c, rdfType, .uri geoFeatureCollection⟩]) ++
          [⟨c, rdfsLabel, .litLang lbl (chars "en")⟩]) ++
            [⟨c, rdfsMember, .uri m1⟩] := by
      intro hmem
      rcases List.mem_append.mp hmem with hmem | hmem
      · rcases List.mem_append.mp hmem with hmem | hmem
        · rcases List.mem_append.mp hmem with hmem | hmem
          · have := hg _ hmem
            simp at this
          · exact absurd (show rdfsMember = rdfType from
              congrArg Triple.p (List.mem_singleton.mp hmem)) (by decide)
        · exact absurd (show rdfsMember = rdfsLabel from
            congrArg Triple.p (List.mem_singleton.mp hmem)) (by decide)
      · have ho : Node.uri m2 = Node.uri m1 :=
          congrArg Triple.o (List.mem_singleton.mp hmem)
        simp only [Node.uri.injEq] at ho
        exact hm ho.symm
    rw [addT_graph_of_not_mem
      (Graph.mk g.bindings (((g.triples ++
        [Triple.mk c rdfType (Node.uri geoFeatureCollection)]) ++
        [Triple.mk c rdfsLabel (Node.litLang lbl (chars "en"))]) ++
        [Triple.mk c rdfsMember (Node.uri m1)]))
      (Triple.mk c rdfsMember (Node.uri m2)) hn4]
    simp [List.append_assoc]
  have hgand : ∀ (q : Triple → Bool),
      g.triples.filter (fun t => t.s == c && q t) = [] := by
    intro q
    refine List.filter_eq_nil_iff.mpr (fun t ht => ?_)
    simp [hg t ht]
  refine ⟨?_, ?_, ?_, ?_⟩
  · rw [typeTriples, e1, List.filter_append, hgand]
    simp [List.filter_cons, beq_self_eq_true,
      (by decide : (rdfsLabel == rdfType) = false),
      (by decide : (rdfsMember == rdfType) = false)]
  · rw [labelTriples, e1, List.filter_append, hgand]
    simp [List.filter_cons, beq_self_eq_true,
      (by decide : (rdfType == rdfsLabel) = false),
      (by decide : (rdfsMember == rdfsLabel) = false)]
  · rw [memberTriples, e1, List.filter_append, hgand]
    simp [List.filter_cons, beq_self_eq_true,
      (by decide : (rdfType == rdfsMember) = false),
      (by decide : (rdfsLabel == rdfsMember) = false)]
  · rw [memberTriples, e1, List.filter_append, hgand]
    simp [List.filter_cons, beq_self_eq_true,
      (by decide : (rdfType == rdfsMember) = false),
      (by decide : (rdfsLabel == rdfsMember) = false)]

/-- Claim C7 witness: the amended statement instantiated on the empty graph
with two distinct members. -/
theorem C7_witness :
    triplesAbout (⟨[], []⟩ : Graph) (chars "urn:c") = [] ∧
    chars "urn:m1" ≠ chars "urn:m2" ∧
    memberTriples (add_feature_collection ⟨[], []⟩ (chars "urn:c") (chars "L")
        [chars "urn:m1", chars "urn:m2"]) (chars "urn:c") =
      [⟨chars "urn:c", rdfsMember, .uri (chars "urn:m1")⟩,
       ⟨chars "urn:c", rdfsMember, .uri (chars "urn:m2")⟩] :=
  ⟨by decide, by decide,
   (C7_amended_collection ⟨[], []⟩ (chars "urn:c") (chars "L") (chars "urn:m1")
     (chars "urn:m2") (by decide) (by decide)).2.2.1⟩
